import Mathlib

/-!
Shallow embedding of the polo-shirt pattern generator (src/script.py) and
verification of the claims about it.  Geometry is modelled over the exact
reals; each definition mirrors one source function or code block.
-/

namespace Polo

/-- A 2D point, in inches, as the source's (x, y) tuples. -/
abbrev Point := ℝ × ℝ

/-- Source `dist(p1, p2)`: Euclidean distance between two points. -/
noncomputable def dist (p1 p2 : Point) : ℝ :=
  Real.sqrt ((p1.1 - p2.1) ^ 2 + (p1.2 - p2.2) ^ 2)

/-- Source `get_path_length(points_list)`: sum of consecutive distances. -/
noncomputable def get_path_length : List Point → ℝ
  | [] => 0
  | [_] => 0
  | p :: q :: rest => dist p q + get_path_length (q :: rest)

/-- Source `quadratic_bezier(p0, p1, p2, t)`: point on a quadratic Bezier curve. -/
noncomputable def quadratic_bezier (p0 p1 p2 : Point) (t : ℝ) : Point :=
  ((1 - t) ^ 2 * p0.1 + 2 * (1 - t) * t * p1.1 + t ^ 2 * p2.1,
   (1 - t) ^ 2 * p0.2 + 2 * (1 - t) * t * p1.2 + t ^ 2 * p2.2)

/-- Source `generate_bezier_points(p0, p1, p2, num_points)`: uniform samples
at t = i / num_points for i = 0 .. num_points. -/
noncomputable def generate_bezier_points (p0 p1 p2 : Point) (numPoints : ℕ) : List Point :=
  (List.range (numPoints + 1)).map fun (i : ℕ) =>
    quadratic_bezier p0 p1 p2 ((i : ℝ) / (numPoints : ℝ))

/-- The interior samples of a 30-point Bezier polyline, the source's
`generate_bezier_points(p0, p1, p2)[1:-1]` with the default num_points=30. -/
noncomputable def bez_inner (p0 p1 p2 : Point) : List Point :=
  ((generate_bezier_points p0 p1 p2 30).drop 1).dropLast

/-- The analytic tangent of the quadratic Bezier at parameter t, the pair
(dx_dt, dy_dt) computed inside `offset_bezier_curve`. -/
noncomputable def bez_tangent (p0 p1 p2 : Point) (t : ℝ) : Point :=
  (2 * (1 - t) * (p1.1 - p0.1) + 2 * t * (p2.1 - p1.1),
   2 * (1 - t) * (p1.2 - p0.2) + 2 * t * (p2.2 - p1.2))

/-- One iteration of the `offset_bezier_curve` loop: at sample index i the
curve point is displaced by `offset` along the unit normal (-dy, dx)/|..|;
when the normal has zero length the sample is skipped (`none`). -/
noncomputable def offset_sample (p0 p1 p2 : Point) (offset : ℝ) (numPoints i : ℕ) : Option Point :=
  let t : ℝ := (i : ℝ) / (numPoints : ℝ)
  let pt := quadratic_bezier p0 p1 p2 t
  let tang := bez_tangent p0 p1 p2 t
  let normalLength := Real.sqrt ((-tang.2) ^ 2 + tang.1 ^ 2)
  if 0 < normalLength then
    some (pt.1 + offset * ((-tang.2) / normalLength), pt.2 + offset * (tang.1 / normalLength))
  else
    none

/-- The loop body of `offset_bezier_curve`: append the sample's point when one
was produced, otherwise keep the accumulator unchanged. -/
def appendOpt (acc : List Point) (q : Option Point) : List Point :=
  match q with
  | some x => acc ++ [x]
  | none => acc

/-- Source `offset_bezier_curve(p0, p1, p2, offset, num_points)`: the loop
appends the offset point for each sample whose normal is non-degenerate. -/
noncomputable def offset_bezier_curve (p0 p1 p2 : Point) (offset : ℝ) (numPoints : ℕ) : List Point :=
  (List.range (numPoints + 1)).foldl
    (fun acc i => appendOpt acc (offset_sample p0 p1 p2 offset numPoints i))
    []

/-- The geometric content of source `draw_straight_seam_allowance(ax, p1, p2, offset)`:
`none` for a zero-length edge (the early return), otherwise the two endpoints
of the drawn parallel segment. -/
noncomputable def draw_straight_seam_allowance (p1 p2 : Point) (offset : ℝ) :
    Option (Point × Point) :=
  let v : Point := (p2.1 - p1.1, p2.2 - p1.2)
  let length := Real.sqrt (v.1 ^ 2 + v.2 ^ 2)
  if length = 0 then none
  else
    let n : Point := (-v.2 / length, v.1 / length)
    some ((p1.1 + offset * n.1, p1.2 + offset * n.2),
          (p2.1 + offset * n.1, p2.2 + offset * n.2))

/-- Rotation of a vector by -90 degrees (clockwise): (x, y) maps to (y, -x). -/
def rot_neg90 (v : Point) : Point := (v.2, -v.1)

/-- Rotation of a vector by +90 degrees (counterclockwise): (x, y) maps to (-y, x). -/
def rot_pos90 (v : Point) : Point := (-v.2, v.1)

/-- Modelled from the spec: the seam-allowance segment the claim describes,
with endpoints displaced by `offset` along the unit normal obtained by
rotating the edge direction vector p2 - p1 by -90 degrees. -/
noncomputable def spec_seam_neg90 (p1 p2 : Point) (offset : ℝ) : Point × Point :=
  let u := rot_neg90 (p2.1 - p1.1, p2.2 - p1.2)
  let len := Real.sqrt (u.1 ^ 2 + u.2 ^ 2)
  ((p1.1 + offset * (u.1 / len), p1.2 + offset * (u.2 / len)),
   (p2.1 + offset * (u.1 / len), p2.2 + offset * (u.2 / len)))

/-- The same seam-allowance segment with the normal obtained by rotating the
edge direction vector by +90 degrees instead. -/
noncomputable def spec_seam_pos90 (p1 p2 : Point) (offset : ℝ) : Point × Point :=
  let u := rot_pos90 (p2.1 - p1.1, p2.2 - p1.2)
  let len := Real.sqrt (u.1 ^ 2 + u.2 ^ 2)
  ((p1.1 + offset * (u.1 / len), p1.2 + offset * (u.2 / len)),
   (p2.1 + offset * (u.1 / len), p2.2 + offset * (u.2 / len)))

/-- Mirror about the vertical center line, the source's (-x, y). -/
def mirror_pt (p : Point) : Point := (-p.1, p.2)

lemma mirror_mirror (p : Point) : mirror_pt (mirror_pt p) = p := by
  simp [mirror_pt]

lemma sq_sum_pos_of_ne {a b : ℝ} (h : ¬(a = 0 ∧ b = 0)) : 0 < a ^ 2 + b ^ 2 := by
  rcases not_and_or.mp h with ha | hb
  · have h1 : 0 < a ^ 2 := lt_of_le_of_ne (sq_nonneg a) (Ne.symm (pow_ne_zero 2 ha))
    nlinarith [sq_nonneg b]
  · have h1 : 0 < b ^ 2 := lt_of_le_of_ne (sq_nonneg b) (Ne.symm (pow_ne_zero 2 hb))
    nlinarith [sq_nonneg a]

lemma appendOpt_some (acc : List Point) (x : Point) : appendOpt acc (some x) = acc ++ [x] := rfl

lemma appendOpt_none (acc : List Point) : appendOpt acc none = acc := rfl

lemma foldl_opt_append (f : ℕ → Option Point) (l : List ℕ) (acc : List Point) :
    l.foldl (fun a i => appendOpt a (f i)) acc = acc ++ l.filterMap f := by
  induction l generalizing acc with
  | nil => simp
  | cons hd tl ih =>
    rw [List.foldl_cons, List.filterMap_cons]
    cases hf : f hd with
    | some q =>
      rw [appendOpt_some, ih]
      simp
    | none =>
      rw [appendOpt_none, ih]

lemma filterMap_eq_map_of_all_some {α β : Type} (f : α → Option β) (g : α → β)
    (l : List α) (h : ∀ a ∈ l, f a = some (g a)) :
    l.filterMap f = l.map g := by
  induction l with
  | nil => simp
  | cons hd tl ih =>
    rw [List.filterMap_cons, h hd (by simp), List.map_cons,
      ih fun a ha => h a (by simp [ha])]

/-- A complete measurement set: one real value per input key (inches). -/
structure Meas where
  half_chest_flat : ℝ
  garment_length : ℝ
  neck_width_half : ℝ
  front_neck_drop : ℝ
  back_neck_drop : ℝ
  shoulder_width : ℝ
  shoulder_slope : ℝ
  armhole_depth : ℝ
  sleeve_length_outer : ℝ
  sleeve_bicep_flat : ℝ
  sleeve_cuff_flat : ℝ
  collar_height_flat : ℝ
  placket_width : ℝ
  placket_length : ℝ

/-- The defensive clamp at the top of `generate_pattern_visuals`: when
shoulder_width < shoulder_slope the slope is overwritten with 98% of the width. -/
noncomputable def clampMeas (m : Meas) : Meas :=
  if m.shoulder_width < m.shoulder_slope then
    { m with shoulder_slope := m.shoulder_width * 0.98 }
  else m

/-- `dx_shoulder = sqrt(max(0, shoulder_width**2 - shoulder_slope**2))`,
read from the (possibly clamped) measurement set. -/
noncomputable def dx_shoulder (m : Meas) : ℝ :=
  Real.sqrt (max 0 (m.shoulder_width ^ 2 - m.shoulder_slope ^ 2))

/-- Front body landmark `p_cf_neck`. -/
noncomputable def p_cf_neck (m : Meas) : Point :=
  (0, m.garment_length - m.front_neck_drop)

/-- Front body landmark `p_hps_r`. -/
noncomputable def p_hps_r (m : Meas) : Point :=
  (m.neck_width_half, m.garment_length)

/-- Front body landmark `p_st_r`. -/
noncomputable def p_st_r (m : Meas) : Point :=
  (m.neck_width_half + dx_shoulder m, m.garment_length - m.shoulder_slope)

/-- Front body landmark `p_au_r`. -/
noncomputable def p_au_r (m : Meas) : Point :=
  (m.half_chest_flat / 2, m.garment_length - m.armhole_depth)

/-- Front body landmark `p_sh_r`. -/
noncomputable def p_sh_r (m : Meas) : Point :=
  (m.half_chest_flat / 2, 0)

/-- Front neck Bezier control point `p_fn_ctrl_r`. -/
noncomputable def p_fn_ctrl_r (m : Meas) : Point :=
  (m.neck_width_half * 0.4,
   (p_cf_neck m).2 + ((p_hps_r m).2 - (p_cf_neck m).2) * 0.3)

/-- Front armhole Bezier control point `p_fa_ctrl_r`. -/
noncomputable def p_fa_ctrl_r (m : Meas) : Point :=
  (((p_st_r m).1 + (p_au_r m).1) / 2
     + (m.half_chest_flat / 2 - (m.neck_width_half + dx_shoulder m)) * 0.15,
   ((p_st_r m).2 + (p_au_r m).2) / 2 - m.armhole_depth * 0.05)

/-- Source `front_polygon_pts_smooth`: the front body boundary in
piece-local coordinates, the right-half landmark chain concatenated with its
horizontal mirror image. -/
noncomputable def front_polygon_pts_smooth (m : Meas) : List Point :=
  [p_cf_neck m]
    ++ bez_inner (p_cf_neck m) (p_fn_ctrl_r m) (p_hps_r m)
    ++ [p_hps_r m, p_st_r m]
    ++ bez_inner (p_st_r m) (p_fa_ctrl_r m) (p_au_r m)
    ++ [p_au_r m, p_sh_r m, mirror_pt (p_sh_r m), mirror_pt (p_au_r m)]
    ++ bez_inner (mirror_pt (p_au_r m)) (mirror_pt (p_fa_ctrl_r m)) (mirror_pt (p_st_r m))
    ++ [mirror_pt (p_st_r m), mirror_pt (p_hps_r m)]
    ++ bez_inner (mirror_pt (p_hps_r m)) (mirror_pt (p_fn_ctrl_r m)) (p_cf_neck m)

/-- Back neck sub-path `[p5_b, p_neck_ctrl_b, p6_b]` (HPS, control, CB neck),
as a function of the measurements it reads. -/
noncomputable def back_neck_path (nwh gl bnd : ℝ) : List Point :=
  [(nwh, gl),
   (nwh * 0.5, ((gl - bnd) + gl) / 2 + bnd * 0.2),
   (0, gl - bnd)]

/-- Source `half_back_neckline_length = get_path_length(back_neck_path)`. -/
noncomputable def half_back_neckline_length (nwh gl bnd : ℝ) : ℝ :=
  get_path_length (back_neck_path nwh gl bnd)

/-- Front neck sub-path `[p_cf_neck, p_fn_ctrl_r, p_hps_r]` (CF neck, control, HPS),
as a function of the measurements it reads. -/
noncomputable def front_neck_path (nwh gl fnd : ℝ) : List Point :=
  [(0, gl - fnd),
   (nwh * 0.4, (gl - fnd) + (gl - (gl - fnd)) * 0.3),
   (nwh, gl)]

/-- Source `half_front_neckline_length = get_path_length(front_neck_path_right)`. -/
noncomputable def half_front_neckline_length (nwh gl fnd : ℝ) : ℝ :=
  get_path_length (front_neck_path nwh gl fnd)

/-- Sleeve cap height, `cap_height = sL * 0.25`. -/
noncomputable def cap_height (m : Meas) : ℝ := m.sleeve_length_outer * 0.25

/-- Sleeve underarm length, `underarm_length = sL - cap_height`. -/
noncomputable def underarm_length (m : Meas) : ℝ :=
  m.sleeve_length_outer - cap_height m

/-- The cuff width actually used: `if sWC > sWB: sWC = sWB`. -/
noncomputable def sWC_used (m : Meas) : ℝ :=
  if m.sleeve_cuff_flat > m.sleeve_bicep_flat then m.sleeve_bicep_flat
  else m.sleeve_cuff_flat

/-- Sleeve landmark `p1_cuff_left` (plot offsets are (1, 1) in the source). -/
noncomputable def p1_cuff_left (m : Meas) : Point :=
  (1 + (m.sleeve_bicep_flat - sWC_used m) / 2, 1)

/-- Sleeve landmark `p2_cuff_right`. -/
noncomputable def p2_cuff_right (m : Meas) : Point :=
  (1 + (m.sleeve_bicep_flat - sWC_used m) / 2 + sWC_used m, 1)

/-- Sleeve landmark `p3_underarm_right`. -/
noncomputable def p3_underarm_right (m : Meas) : Point :=
  (1 + m.sleeve_bicep_flat, 1 + underarm_length m)

/-- Sleeve cap peak `(cap_peak_x, cap_peak_y)`. -/
noncomputable def cap_peak (m : Meas) : Point :=
  (1 + m.sleeve_bicep_flat / 2, 1 + m.sleeve_length_outer)

/-- The named measurement keys of the shared measurement dictionary,
including the derived `collar_length_calculated` key. -/
inductive Key where
  | half_chest_flat
  | garment_length
  | neck_width_half
  | front_neck_drop
  | back_neck_drop
  | shoulder_width
  | shoulder_slope
  | armhole_depth
  | sleeve_length_outer
  | sleeve_bicep_flat
  | sleeve_cuff_flat
  | collar_height_flat
  | placket_width
  | placket_length
  | collar_length_calculated
  deriving DecidableEq

/-- The shared measurement dictionary: a partial map from keys to values. -/
def MeasMap := Key → Option ℝ

/-- A dictionary write, `m[k] = v`. -/
def updateMap (mm : MeasMap) (k : Key) (v : ℝ) : MeasMap :=
  fun k' => if k' = k then some v else mm k'

/-- The error a dictionary read raises when the key is absent (Python KeyError). -/
inductive DraftError where
  | keyError (k : Key)
  deriving DecidableEq

/-- A dictionary read, `m[k]`: the value, or a KeyError when absent. -/
def look (mm : MeasMap) (k : Key) : Except DraftError ℝ :=
  match mm k with
  | some v => .ok v
  | none => .error (.keyError k)

/-- Sequencing of a fallible read with the rest of the computation. -/
def andThen (x : Except DraftError ℝ) (f : ℝ → Except DraftError MeasMap) :
    Except DraftError MeasMap :=
  match x with
  | .ok v => f v
  | .error e => .error e

/-- The value of key k, defaulting to 0 (only used beneath a presence proof). -/
def mval (mm : MeasMap) (k : Key) : ℝ := (mm k).getD 0

/-- All input keys are present (the derived collar key need not be). -/
def completeMap (mm : MeasMap) : Prop :=
  ∀ k, k ≠ Key.collar_length_calculated → (mm k).isSome

/-- The clamp of lines 326-327 acting on the shared dictionary: when
shoulder_width < shoulder_slope the slope entry is overwritten in place. -/
noncomputable def clampMap (mm : MeasMap) : MeasMap :=
  if mval mm .shoulder_width < mval mm .shoulder_slope then
    updateMap mm .shoulder_slope (mval mm .shoulder_width * 0.98)
  else mm

/-- The derived collar value written at line 487:
`(half_back_neckline_length + half_front_neckline_length) * 2`. -/
noncomputable def collarValue (mm : MeasMap) : ℝ :=
  (half_back_neckline_length (mval mm .neck_width_half) (mval mm .garment_length)
      (mval mm .back_neck_drop)
    + half_front_neckline_length (mval mm .neck_width_half) (mval mm .garment_length)
      (mval mm .front_neck_drop)) * 2

/-- The final state of the shared dictionary after a successful run:
the conditional shoulder clamp followed by the collar-length write. -/
noncomputable def finalizeMap (mm : MeasMap) : MeasMap :=
  updateMap (clampMap mm) .collar_length_calculated (collarValue (clampMap mm))

/-- The effect of `generate_pattern_visuals` on the shared measurement
dictionary: reads in the source's first-access order, the conditional
shoulder-slope clamp, the collar-length write between the body-drafting and
collar-drafting phases, and the final dictionary on success.  A missing key
surfaces as a KeyError at its first access. -/
noncomputable def runDraft (mm : MeasMap) : Except DraftError MeasMap :=
  andThen (look mm .shoulder_width) fun sw =>
  andThen (look mm .shoulder_slope) fun ss =>
  let mm1 := if sw < ss then updateMap mm .shoulder_slope (sw * 0.98) else mm
  andThen (look mm1 .half_chest_flat) fun _hcf =>
  andThen (look mm1 .garment_length) fun gl =>
  andThen (look mm1 .armhole_depth) fun _ad =>
  andThen (look mm1 .neck_width_half) fun nwh =>
  andThen (look mm1 .back_neck_drop) fun bnd =>
  andThen (look mm1 .front_neck_drop) fun fnd =>
  andThen (look mm1 .placket_width) fun _pw =>
  andThen (look mm1 .placket_length) fun _pl =>
  let mm2 := updateMap mm1 .collar_length_calculated
    ((half_back_neckline_length nwh gl bnd + half_front_neckline_length nwh gl fnd) * 2)
  andThen (look mm2 .sleeve_length_outer) fun _sl =>
  andThen (look mm2 .sleeve_bicep_flat) fun _sb =>
  andThen (look mm2 .sleeve_cuff_flat) fun _sc =>
  andThen (look mm2 .collar_length_calculated) fun _cl =>
  andThen (look mm2 .collar_height_flat) fun _ch =>
  .ok mm2

lemma andThen_ok (v : ℝ) (f : ℝ → Except DraftError MeasMap) :
    andThen (.ok v) f = f v := rfl

lemma andThen_error (e : DraftError) (f : ℝ → Except DraftError MeasMap) :
    andThen (.error e) f = .error e := rfl

lemma look_eq_ok {mm : MeasMap} {k : Key} {v : ℝ} (h : mm k = some v) :
    look mm k = .ok v := by simp [look, h]

lemma updateMap_same (mm : MeasMap) (k : Key) (v : ℝ) :
    updateMap mm k v k = some v := by simp [updateMap]

lemma updateMap_ne (mm : MeasMap) (k : Key) (v : ℝ) {k' : Key} (h : k' ≠ k) :
    updateMap mm k v k' = mm k' := by simp [updateMap, h]

lemma mval_eq {mm : MeasMap} {k : Key} {v : ℝ} (h : mm k = some v) :
    mval mm k = v := by simp [mval, h]

lemma clampMap_ne (mm : MeasMap) {k : Key} (hk : k ≠ Key.shoulder_slope) :
    clampMap mm k = mm k := by
  unfold clampMap
  by_cases hc : mval mm .shoulder_width < mval mm .shoulder_slope
  · rw [if_pos hc]; exact updateMap_ne _ _ _ hk
  · rw [if_neg hc]

lemma mval_clamp_ne (mm : MeasMap) {k : Key} (hk : k ≠ Key.shoulder_slope) :
    mval (clampMap mm) k = mval mm k := by
  simp [mval, clampMap_ne mm hk]

lemma finalizeMap_frame (mm : MeasMap) {k : Key} (h1 : k ≠ Key.shoulder_slope)
    (h2 : k ≠ Key.collar_length_calculated) : finalizeMap mm k = mm k := by
  rw [finalizeMap, updateMap_ne _ _ _ h2, clampMap_ne mm h1]

lemma finalizeMap_collar (mm : MeasMap) :
    finalizeMap mm Key.collar_length_calculated = some (collarValue (clampMap mm)) :=
  updateMap_same _ _ _

lemma finalizeMap_slope (mm : MeasMap) :
    finalizeMap mm Key.shoulder_slope =
      if mval mm .shoulder_width < mval mm .shoulder_slope then
        some (mval mm .shoulder_width * 0.98)
      else mm Key.shoulder_slope := by
  rw [finalizeMap, updateMap_ne _ _ _ (by decide)]
  unfold clampMap
  by_cases hc : mval mm .shoulder_width < mval mm .shoulder_slope
  · rw [if_pos hc, if_pos hc, updateMap_same]
  · rw [if_neg hc, if_neg hc]

lemma runDraft_complete (mm : MeasMap) (h : completeMap mm) :
    runDraft mm = .ok (finalizeMap mm) := by
  obtain ⟨sw, hsw⟩ := Option.isSome_iff_exists.mp (h .shoulder_width (by decide))
  obtain ⟨ss, hss⟩ := Option.isSome_iff_exists.mp (h .shoulder_slope (by decide))
  obtain ⟨hcf, hhcf⟩ := Option.isSome_iff_exists.mp (h .half_chest_flat (by decide))
  obtain ⟨gl, hgl⟩ := Option.isSome_iff_exists.mp (h .garment_length (by decide))
  obtain ⟨ad, had⟩ := Option.isSome_iff_exists.mp (h .armhole_depth (by decide))
  obtain ⟨nwh, hnwh⟩ := Option.isSome_iff_exists.mp (h .neck_width_half (by decide))
  obtain ⟨bnd, hbnd⟩ := Option.isSome_iff_exists.mp (h .back_neck_drop (by decide))
  obtain ⟨fnd, hfnd⟩ := Option.isSome_iff_exists.mp (h .front_neck_drop (by decide))
  obtain ⟨pw, hpw⟩ := Option.isSome_iff_exists.mp (h .placket_width (by decide))
  obtain ⟨pl, hpl⟩ := Option.isSome_iff_exists.mp (h .placket_length (by decide))
  obtain ⟨sl, hsl⟩ := Option.isSome_iff_exists.mp (h .sleeve_length_outer (by decide))
  obtain ⟨sb, hsb⟩ := Option.isSome_iff_exists.mp (h .sleeve_bicep_flat (by decide))
  obtain ⟨sc, hsc⟩ := Option.isSome_iff_exists.mp (h .sleeve_cuff_flat (by decide))
  obtain ⟨ch, hch⟩ := Option.isSome_iff_exists.mp (h .collar_height_flat (by decide))
  have hclampeq :
      (if sw < ss then updateMap mm Key.shoulder_slope (sw * 0.98) else mm) = clampMap mm := by
    simp only [clampMap, mval_eq hsw, mval_eq hss]
  have lhcf : look (clampMap mm) .half_chest_flat = .ok hcf :=
    look_eq_ok ((clampMap_ne mm (by decide)).trans hhcf)
  have lgl : look (clampMap mm) .garment_length = .ok gl :=
    look_eq_ok ((clampMap_ne mm (by decide)).trans hgl)
  have lad : look (clampMap mm) .armhole_depth = .ok ad :=
    look_eq_ok ((clampMap_ne mm (by decide)).trans had)
  have lnwh : look (clampMap mm) .neck_width_half = .ok nwh :=
    look_eq_ok ((clampMap_ne mm (by decide)).trans hnwh)
  have lbnd : look (clampMap mm) .back_neck_drop = .ok bnd :=
    look_eq_ok ((clampMap_ne mm (by decide)).trans hbnd)
  have lfnd : look (clampMap mm) .front_neck_drop = .ok fnd :=
    look_eq_ok ((clampMap_ne mm (by decide)).trans hfnd)
  have lpw : look (clampMap mm) .placket_width = .ok pw :=
    look_eq_ok ((clampMap_ne mm (by decide)).trans hpw)
  have lpl : look (clampMap mm) .placket_length = .ok pl :=
    look_eq_ok ((clampMap_ne mm (by decide)).trans hpl)
  have lsl : ∀ V, look (updateMap (clampMap mm) .collar_length_calculated V)
      .sleeve_length_outer = .ok sl := fun V =>
    look_eq_ok ((updateMap_ne _ _ _ (by decide)).trans
      ((clampMap_ne mm (by decide)).trans hsl))
  have lsb : ∀ V, look (updateMap (clampMap mm) .collar_length_calculated V)
      .sleeve_bicep_flat = .ok sb := fun V =>
    look_eq_ok ((updateMap_ne _ _ _ (by decide)).trans
      ((clampMap_ne mm (by decide)).trans hsb))
  have lsc : ∀ V, look (updateMap (clampMap mm) .collar_length_calculated V)
      .sleeve_cuff_flat = .ok sc := fun V =>
    look_eq_ok ((updateMap_ne _ _ _ (by decide)).trans
      ((clampMap_ne mm (by decide)).trans hsc))
  have lch : ∀ V, look (updateMap (clampMap mm) .collar_length_calculated V)
      .collar_height_flat = .ok ch := fun V =>
    look_eq_ok ((updateMap_ne _ _ _ (by decide)).trans
      ((clampMap_ne mm (by decide)).trans hch))
  have lcl : ∀ V, look (updateMap (clampMap mm) .collar_length_calculated V)
      .collar_length_calculated = .ok V := fun V =>
    look_eq_ok (updateMap_same _ _ _)
  have hcv : collarValue (clampMap mm)
      = (half_back_neckline_length nwh gl bnd + half_front_neckline_length nwh gl fnd) * 2 := by
    rw [collarValue, mval_clamp_ne mm (by decide), mval_clamp_ne mm (by decide),
      mval_clamp_ne mm (by decide), mval_clamp_ne mm (by decide),
      mval_eq hnwh, mval_eq hgl, mval_eq hbnd, mval_eq hfnd]
  simp only [runDraft, look_eq_ok hsw, look_eq_ok hss, andThen_ok, hclampeq,
    lhcf, lgl, lad, lnwh, lbnd, lfnd, lpw, lpl, lsl, lsb, lsc, lch, lcl]
  rw [finalizeMap, hcv]

/-- The predefined size-S measurement dictionary (no collar key supplied). -/
def sizeSMap : MeasMap := fun k =>
  match k with
  | .half_chest_flat => some 18
  | .garment_length => some 24.5
  | .neck_width_half => some 3.0
  | .front_neck_drop => some 2.75
  | .back_neck_drop => some 0.75
  | .shoulder_width => some 4.5
  | .shoulder_slope => some 1.5
  | .armhole_depth => some 8.0
  | .sleeve_length_outer => some 7
  | .sleeve_bicep_flat => some 7
  | .sleeve_cuff_flat => some 6
  | .collar_height_flat => some 3
  | .placket_width => some 1.5
  | .placket_length => some 5
  | .collar_length_calculated => none

/-- A complete measurement dictionary with a zero shoulder width and every
other input key set to one. -/
def zeroWidthMap : MeasMap := fun k =>
  match k with
  | .shoulder_width => some 0
  | .collar_length_calculated => none
  | _ => some 1

/-- A complete measurement dictionary whose shoulder slope (2) exceeds its
shoulder width (1); every other input key is one. -/
def bigSlopeMap : MeasMap := fun k =>
  match k with
  | .shoulder_slope => some 2
  | .collar_length_calculated => none
  | _ => some 1

lemma sizeSMap_complete : completeMap sizeSMap := by
  intro k hk
  cases k <;> first | rfl | exact absurd rfl hk

lemma zeroWidthMap_complete : completeMap zeroWidthMap := by
  intro k hk
  cases k <;> first | rfl | exact absurd rfl hk

lemma bigSlopeMap_complete : completeMap bigSlopeMap := by
  intro k hk
  cases k <;> first | rfl | exact absurd rfl hk

/-- A measurement set with shoulder_slope = shoulder_width (both 1). -/
def eqMeas : Meas :=
  { half_chest_flat := 1, garment_length := 1, neck_width_half := 1,
    front_neck_drop := 1, back_neck_drop := 1, shoulder_width := 1,
    shoulder_slope := 1, armhole_depth := 1, sleeve_length_outer := 1,
    sleeve_bicep_flat := 1, sleeve_cuff_flat := 1, collar_height_flat := 1,
    placket_width := 1, placket_length := 1 }

/-- The spec scenario: shoulder_width = 1, shoulder_slope = 2, others 1. -/
def scenarioMeas : Meas :=
  { half_chest_flat := 1, garment_length := 1, neck_width_half := 1,
    front_neck_drop := 1, back_neck_drop := 1, shoulder_width := 1,
    shoulder_slope := 2, armhole_depth := 1, sleeve_length_outer := 1,
    sleeve_bicep_flat := 1, sleeve_cuff_flat := 1, collar_height_flat := 1,
    placket_width := 1, placket_length := 1 }

/-- Claim C1: for every complete measurement set the drafting run succeeds and
the derived collar length written into the map equals 2 times the half-back
neckline length plus 2 times the half-front neckline length, each being the
chord-based path length of the drafted three-point neck control polygon of the
same measurement set. -/
theorem collar_length_is_twice_necklines (mm : MeasMap) (h : completeMap mm) :
    runDraft mm = .ok (finalizeMap mm) ∧
    finalizeMap mm Key.collar_length_calculated =
      some (2 * half_back_neckline_length (mval mm .neck_width_half)
              (mval mm .garment_length) (mval mm .back_neck_drop)
          + 2 * half_front_neckline_length (mval mm .neck_width_half)
              (mval mm .garment_length) (mval mm .front_neck_drop)) := by
  refine ⟨runDraft_complete mm h, ?_⟩
  rw [finalizeMap_collar, collarValue, mval_clamp_ne mm (by decide),
    mval_clamp_ne mm (by decide), mval_clamp_ne mm (by decide),
    mval_clamp_ne mm (by decide)]
  congr 1
  ring

/-- Witness for C1 at the predefined size-S measurements. -/
theorem collar_length_is_twice_necklines_witness :
    completeMap sizeSMap ∧
    (runDraft sizeSMap = .ok (finalizeMap sizeSMap) ∧
     finalizeMap sizeSMap Key.collar_length_calculated =
       some (2 * half_back_neckline_length (mval sizeSMap .neck_width_half)
               (mval sizeSMap .garment_length) (mval sizeSMap .back_neck_drop)
           + 2 * half_front_neckline_length (mval sizeSMap .neck_width_half)
               (mval sizeSMap .garment_length) (mval sizeSMap .front_neck_drop))) :=
  ⟨sizeSMap_complete, collar_length_is_twice_necklines sizeSMap sizeSMap_complete⟩

/-- Claim C2 counterexample: a complete measurement set with a zero value
(shoulder_width = 0) is not rejected - the drafting run completes without any
error, so no InvalidMeasurement rejection happens before geometry. -/
theorem zero_measurement_not_rejected :
    zeroWidthMap Key.shoulder_width = some 0 ∧ (runDraft zeroWidthMap).isOk = true := by
  refine ⟨rfl, ?_⟩
  rw [runDraft_complete zeroWidthMap zeroWidthMap_complete]
  rfl

/-- Claim C2 amended: the drafting code performs no measurement validation -
any measurement set with all required keys present is accepted, even with zero
or negative values; only a missing key raises, as a KeyError at its first
access (shoulder_width is accessed first). -/
theorem drafting_has_no_validation (mm : MeasMap) (h : completeMap mm) :
    (runDraft mm).isOk = true ∧
    runDraft (fun _ => none) = .error (.keyError Key.shoulder_width) := by
  constructor
  · rw [runDraft_complete mm h]; rfl
  · rfl

/-- Witness for the amended C2 at the zero-shoulder-width dictionary. -/
theorem drafting_has_no_validation_witness :
    completeMap zeroWidthMap ∧
    ((runDraft zeroWidthMap).isOk = true ∧
     runDraft (fun _ => none) = .error (.keyError Key.shoulder_width)) :=
  ⟨zeroWidthMap_complete, drafting_has_no_validation zeroWidthMap zeroWidthMap_complete⟩

/-- Claim C3 counterexample: at shoulder_slope = shoulder_width (both 1) the
claimed clamp to 98% of the width does not happen - the slope used is still 1,
not 0.98. -/
theorem clamp_not_applied_at_equality :
    eqMeas.shoulder_slope = eqMeas.shoulder_width ∧
    (clampMeas eqMeas).shoulder_slope = 1 ∧
    (1 : ℝ) ≠ eqMeas.shoulder_width * 0.98 := by
  refine ⟨rfl, ?_, by norm_num [eqMeas]⟩
  rw [clampMeas, if_neg (by norm_num [eqMeas])]
  rfl

/-- Claim C3 amended: the shoulder slope is clamped to 98% of the shoulder
width only when the slope strictly exceeds the width; the shoulder tip
X-offset sqrt(max(0, width^2 - slope^2)) is then real and non-negative. -/
theorem clamp_on_strict_excess (m : Meas) (h : m.shoulder_width < m.shoulder_slope) :
    (clampMeas m).shoulder_slope = m.shoulder_width * 0.98 ∧
    0 ≤ dx_shoulder (clampMeas m) := by
  constructor
  · rw [clampMeas, if_pos h]
  · exact Real.sqrt_nonneg _

/-- Witness for the amended C3 at the spec scenario width 1, slope 2. -/
theorem clamp_on_strict_excess_witness :
    scenarioMeas.shoulder_width < scenarioMeas.shoulder_slope ∧
    ((clampMeas scenarioMeas).shoulder_slope = scenarioMeas.shoulder_width * 0.98 ∧
     0 ≤ dx_shoulder (clampMeas scenarioMeas)) :=
  ⟨by norm_num [scenarioMeas], clamp_on_strict_excess scenarioMeas (by norm_num [scenarioMeas])⟩

/-- Claim C4 counterexample: with shoulder_width 1 and shoulder_slope 2 the
drafting run also overwrites the shoulder_slope entry of the shared map (to
0.98), so the run does not mutate the map exactly once. -/
theorem shoulder_slope_also_mutated :
    bigSlopeMap Key.shoulder_slope = some 2 ∧
    runDraft bigSlopeMap = .ok (finalizeMap bigSlopeMap) ∧
    finalizeMap bigSlopeMap Key.shoulder_slope = some 0.98 ∧
    some (0.98 : ℝ) ≠ some (2 : ℝ) := by
  refine ⟨rfl, runDraft_complete _ bigSlopeMap_complete, ?_, by norm_num⟩
  rw [finalizeMap_slope]
  norm_num [mval, bigSlopeMap]

/-- Claim C4 amended: a full drafting run mutates the shared measurement map
at most twice - it conditionally overwrites shoulder_slope with 98% of
shoulder_width before drafting (only when width < slope), and it adds the
collar_length_calculated key between the body-drafting and collar-drafting
phases; every other key is left unchanged. -/
theorem runDraft_mutation_footprint (mm : MeasMap) (h : completeMap mm) :
    runDraft mm = .ok (finalizeMap mm) ∧
    (∀ k, k ≠ Key.shoulder_slope → k ≠ Key.collar_length_calculated →
      finalizeMap mm k = mm k) ∧
    finalizeMap mm Key.collar_length_calculated = some (collarValue (clampMap mm)) ∧
    (mval mm .shoulder_width < mval mm .shoulder_slope →
      finalizeMap mm Key.shoulder_slope = some (mval mm .shoulder_width * 0.98)) ∧
    (¬ mval mm .shoulder_width < mval mm .shoulder_slope →
      finalizeMap mm Key.shoulder_slope = mm Key.shoulder_slope) := by
  refine ⟨runDraft_complete mm h, fun k h1 h2 => finalizeMap_frame mm h1 h2,
    finalizeMap_collar mm, fun hc => ?_, fun hc => ?_⟩
  · rw [finalizeMap_slope, if_pos hc]
  · rw [finalizeMap_slope, if_neg hc]

/-- Witness for the amended C4 at the big-slope dictionary. -/
theorem runDraft_mutation_footprint_witness :
    completeMap bigSlopeMap ∧
    (runDraft bigSlopeMap = .ok (finalizeMap bigSlopeMap) ∧
     (∀ k, k ≠ Key.shoulder_slope → k ≠ Key.collar_length_calculated →
       finalizeMap bigSlopeMap k = bigSlopeMap k) ∧
     finalizeMap bigSlopeMap Key.collar_length_calculated =
       some (collarValue (clampMap bigSlopeMap)) ∧
     (mval bigSlopeMap .shoulder_width < mval bigSlopeMap .shoulder_slope →
       finalizeMap bigSlopeMap Key.shoulder_slope =
         some (mval bigSlopeMap .shoulder_width * 0.98)) ∧
     (¬ mval bigSlopeMap .shoulder_width < mval bigSlopeMap .shoulder_slope →
       finalizeMap bigSlopeMap Key.shoulder_slope = bigSlopeMap Key.shoulder_slope)) :=
  ⟨bigSlopeMap_complete, runDraft_mutation_footprint bigSlopeMap bigSlopeMap_complete⟩

/-- A measurement set whose input cuff (8) exceeds its bicep (7). -/
def bigCuffMeas : Meas :=
  { half_chest_flat := 20, garment_length := 25, neck_width_half := 3,
    front_neck_drop := 3, back_neck_drop := 1, shoulder_width := 5,
    shoulder_slope := 2, armhole_depth := 9, sleeve_length_outer := 8,
    sleeve_bicep_flat := 7, sleeve_cuff_flat := 8, collar_height_flat := 3,
    placket_width := 1.5, placket_length := 5 }

/-- Claim C5 counterexample: for the edge (0,0) to (1,0) with offset 1 the code
displaces along (0, 1), the +90 degree rotation of the direction vector, while
the claimed -90 degree rotation would displace along (0, -1); the produced
segment differs from the claimed one. -/
theorem seam_normal_not_neg90 :
    draw_straight_seam_allowance (0, 0) (1, 0) 1 =
      some (((0 : ℝ), (1 : ℝ)), ((1 : ℝ), (1 : ℝ))) ∧
    spec_seam_neg90 (0, 0) (1, 0) 1 = (((0 : ℝ), (-1 : ℝ)), ((1 : ℝ), (-1 : ℝ))) ∧
    draw_straight_seam_allowance (0, 0) (1, 0) 1 ≠
      some (spec_seam_neg90 (0, 0) (1, 0) 1) := by
  have h1 : draw_straight_seam_allowance (0, 0) (1, 0) 1 =
      some (((0 : ℝ), (1 : ℝ)), ((1 : ℝ), (1 : ℝ))) := by
    norm_num [draw_straight_seam_allowance, Real.sqrt_one]
  have h2 : spec_seam_neg90 (0, 0) (1, 0) 1 =
      (((0 : ℝ), (-1 : ℝ)), ((1 : ℝ), (-1 : ℝ))) := by
    norm_num [spec_seam_neg90, rot_neg90, Real.sqrt_one]
  refine ⟨h1, h2, ?_⟩
  rw [h1, h2]
  norm_num [Prod.ext_iff]

/-- Claim C5 amended: for distinct endpoints the straight seam allowance is
the parallel segment displaced by the offset along the unit normal obtained by
rotating the edge direction vector p2 - p1 by +90 degrees (counterclockwise). -/
theorem seam_normal_is_pos90 (p1 p2 : Point) (d : ℝ) (h : p1 ≠ p2) :
    draw_straight_seam_allowance p1 p2 d = some (spec_seam_pos90 p1 p2 d) := by
  have hv : ¬(p2.1 - p1.1 = 0 ∧ p2.2 - p1.2 = 0) := by
    rintro ⟨h1, h2⟩
    exact h (Prod.ext (by linarith) (by linarith))
  have hpos : 0 < (p2.1 - p1.1) ^ 2 + (p2.2 - p1.2) ^ 2 := by
    have := sq_sum_pos_of_ne hv
    linarith
  have hlenpos : 0 < Real.sqrt ((p2.1 - p1.1) ^ 2 + (p2.2 - p1.2) ^ 2) :=
    Real.sqrt_pos.mpr hpos
  have harg : (-(p2.2 - p1.2)) ^ 2 + (p2.1 - p1.1) ^ 2
      = (p2.1 - p1.1) ^ 2 + (p2.2 - p1.2) ^ 2 := by ring
  simp only [draw_straight_seam_allowance, spec_seam_pos90, rot_pos90]
  rw [if_neg hlenpos.ne', harg]

/-- Witness for the amended C5 at the unit edge (0,0) to (1,0), offset 1. -/
theorem seam_normal_is_pos90_witness :
    ((0 : ℝ), (0 : ℝ)) ≠ ((1 : ℝ), (0 : ℝ)) ∧
    draw_straight_seam_allowance (0, 0) (1, 0) 1 = some (spec_seam_pos90 (0, 0) (1, 0) 1) :=
  ⟨by norm_num [Prod.ext_iff],
   seam_normal_is_pos90 (0, 0) (1, 0) 1 (by norm_num [Prod.ext_iff])⟩

/-- Claim C6: degenerate geometry is skipped locally, never crashing - the
offset curve is exactly the per-sample results with zero-tangent samples
dropped (each such sample emits nothing, non-degenerate samples still emit),
and a zero-length straight edge produces no seam-allowance segment at all. -/
theorem degenerate_samples_skipped (p0 p1 p2 : Point) (d : ℝ) (n i : ℕ)
    (p : Point) (d' : ℝ) :
    offset_bezier_curve p0 p1 p2 d n
      = (List.range (n + 1)).filterMap (offset_sample p0 p1 p2 d n) ∧
    (bez_tangent p0 p1 p2 ((i : ℝ) / (n : ℝ)) = (0, 0) →
      offset_sample p0 p1 p2 d n i = none) ∧
    (bez_tangent p0 p1 p2 ((i : ℝ) / (n : ℝ)) ≠ (0, 0) →
      (offset_sample p0 p1 p2 d n i).isSome = true) ∧
    draw_straight_seam_allowance p p d' = none := by
  refine ⟨?_, ?_, ?_, ?_⟩
  · rw [offset_bezier_curve, foldl_opt_append]
    simp
  · intro h
    norm_num [offset_sample, h, Real.sqrt_zero]
  · intro h
    have hv : ¬((bez_tangent p0 p1 p2 ((i : ℝ) / (n : ℝ))).2 = 0 ∧
        (bez_tangent p0 p1 p2 ((i : ℝ) / (n : ℝ))).1 = 0) := by
      rintro ⟨h2, h1⟩
      exact h (Prod.ext h1 h2)
    have hpos := Real.sqrt_pos.mpr (sq_sum_pos_of_ne hv)
    simp [offset_sample, hpos]
  · norm_num [draw_straight_seam_allowance, Real.sqrt_zero]

/-- Witness for C6 at a fully degenerate curve (all control points equal) and
a zero-length straight edge. -/
theorem degenerate_samples_skipped_witness :
    offset_bezier_curve (0, 0) (0, 0) (0, 0) 1 1
      = (List.range 2).filterMap (offset_sample (0, 0) (0, 0) (0, 0) 1 1) ∧
    (bez_tangent (0, 0) (0, 0) (0, 0) ((0 : ℕ) / (1 : ℕ) : ℝ) = (0, 0) →
      offset_sample (0, 0) (0, 0) (0, 0) 1 1 0 = none) ∧
    (bez_tangent (0, 0) (0, 0) (0, 0) ((0 : ℕ) / (1 : ℕ) : ℝ) ≠ (0, 0) →
      (offset_sample (0, 0) (0, 0) (0, 0) 1 1 0).isSome = true) ∧
    draw_straight_seam_allowance (5, 5) (5, 5) 1 = none :=
  degenerate_samples_skipped (0, 0) (0, 0) (0, 0) 1 1 0 (5, 5) 1

/-- Claim C8: the drafted sleeve's cap height (cap peak above the underarm
line) is exactly 25% of the total sleeve length, and the cuff width of the
produced piece never exceeds the bicep width - when the input cuff exceeds the
input bicep it is clamped down to the bicep width. -/
theorem sleeve_cap_and_cuff (m : Meas) :
    (cap_peak m).2 - (p3_underarm_right m).2 = 0.25 * m.sleeve_length_outer ∧
    (p2_cuff_right m).1 - (p1_cuff_left m).1 ≤ m.sleeve_bicep_flat ∧
    (m.sleeve_cuff_flat > m.sleeve_bicep_flat →
      (p2_cuff_right m).1 - (p1_cuff_left m).1 = m.sleeve_bicep_flat) := by
  have hcuff : (p2_cuff_right m).1 - (p1_cuff_left m).1 = sWC_used m := by
    simp [p2_cuff_right, p1_cuff_left]
  refine ⟨?_, ?_, ?_⟩
  · simp only [cap_peak, p3_underarm_right, underarm_length, cap_height]
    ring
  · rw [hcuff]
    unfold sWC_used
    split_ifs with hc
    · exact le_refl _
    · linarith
  · intro hc
    rw [hcuff]
    unfold sWC_used
    rw [if_pos hc]

/-- Witness for C8 at a measurement set whose cuff (8) exceeds its bicep (7). -/
theorem sleeve_cap_and_cuff_witness :
    bigCuffMeas.sleeve_cuff_flat > bigCuffMeas.sleeve_bicep_flat ∧
    ((cap_peak bigCuffMeas).2 - (p3_underarm_right bigCuffMeas).2
        = 0.25 * bigCuffMeas.sleeve_length_outer ∧
     (p2_cuff_right bigCuffMeas).1 - (p1_cuff_left bigCuffMeas).1
        ≤ bigCuffMeas.sleeve_bicep_flat ∧
     (bigCuffMeas.sleeve_cuff_flat > bigCuffMeas.sleeve_bicep_flat →
       (p2_cuff_right bigCuffMeas).1 - (p1_cuff_left bigCuffMeas).1
          = bigCuffMeas.sleeve_bicep_flat)) :=
  ⟨by norm_num [bigCuffMeas], sleeve_cap_and_cuff bigCuffMeas⟩

lemma sqrt_four : Real.sqrt 4 = 2 := by
  rw [show (4 : ℝ) = 2 ^ 2 by norm_num]
  exact Real.sqrt_sq (by norm_num)

/-- Claim C9: with offset 0 and everywhere non-degenerate sampled tangents,
the offset curve emits exactly the sampled curve points. -/
theorem offset_zero_reproduces_sample (p0 p1 p2 : Point) (n : ℕ) (_hn : 0 < n)
    (h : ∀ i : ℕ, i ≤ n → bez_tangent p0 p1 p2 ((i : ℝ) / (n : ℝ)) ≠ (0, 0)) :
    offset_bezier_curve p0 p1 p2 0 n = generate_bezier_points p0 p1 p2 n := by
  rw [offset_bezier_curve, foldl_opt_append, List.nil_append, generate_bezier_points]
  apply filterMap_eq_map_of_all_some
  intro i hi
  have hi' : i ≤ n := by
    have := List.mem_range.mp hi
    omega
  have hne := h i hi'
  have hv : ¬((bez_tangent p0 p1 p2 ((i : ℝ) / (n : ℝ))).2 = 0 ∧
      (bez_tangent p0 p1 p2 ((i : ℝ) / (n : ℝ))).1 = 0) := by
    rintro ⟨h2, h1⟩
    exact hne (Prod.ext h1 h2)
  have harg : (-(bez_tangent p0 p1 p2 ((i : ℝ) / (n : ℝ))).2) ^ 2
        + (bez_tangent p0 p1 p2 ((i : ℝ) / (n : ℝ))).1 ^ 2
      = (bez_tangent p0 p1 p2 ((i : ℝ) / (n : ℝ))).2 ^ 2
        + (bez_tangent p0 p1 p2 ((i : ℝ) / (n : ℝ))).1 ^ 2 := by ring
  have hpos : 0 < Real.sqrt ((-(bez_tangent p0 p1 p2 ((i : ℝ) / (n : ℝ))).2) ^ 2
      + (bez_tangent p0 p1 p2 ((i : ℝ) / (n : ℝ))).1 ^ 2) := by
    rw [harg]
    exact Real.sqrt_pos.mpr (sq_sum_pos_of_ne hv)
  simp only [offset_sample]
  rw [if_pos hpos]
  simp

/-- Witness for C9 on the degenerate-free horizontal curve (0,0),(1,0),(2,0). -/
theorem offset_zero_reproduces_sample_witness :
    offset_bezier_curve (0, 0) (1, 0) (2, 0) 0 1 = generate_bezier_points (0, 0) (1, 0) (2, 0) 1 :=
  offset_zero_reproduces_sample (0, 0) (1, 0) (2, 0) 1 (by norm_num)
    (by
      intro i hi heq
      have h1 := congrArg Prod.fst heq
      simp only [bez_tangent] at h1
      norm_num at h1
      linarith)

/-- Claim C10: every point the offset curve emits lies at Euclidean distance
exactly the absolute offset from the curve point at the same sampled
parameter. -/
theorem offset_points_at_distance (p0 p1 p2 : Point) (d : ℝ) (n : ℕ) (_hn : 1 ≤ n)
    (q : Point) (hq : q ∈ offset_bezier_curve p0 p1 p2 d n) :
    ∃ i : ℕ, i ≤ n ∧ offset_sample p0 p1 p2 d n i = some q ∧
      dist q (quadratic_bezier p0 p1 p2 ((i : ℝ) / (n : ℝ))) = |d| := by
  rw [offset_bezier_curve, foldl_opt_append, List.nil_append, List.mem_filterMap] at hq
  obtain ⟨i, hi, hsome⟩ := hq
  have hi' : i ≤ n := by
    have := List.mem_range.mp hi
    omega
  refine ⟨i, hi', hsome, ?_⟩
  revert hsome
  simp only [offset_sample]
  set t := (i : ℝ) / (n : ℝ) with ht
  set pt := quadratic_bezier p0 p1 p2 t with hpt
  set tg := bez_tangent p0 p1 p2 t with htg
  set L := Real.sqrt ((-tg.2) ^ 2 + tg.1 ^ 2) with hLdef
  intro hsome
  by_cases hpos : 0 < L
  · rw [if_pos hpos] at hsome
    have hqeq : q = (pt.1 + d * (-tg.2 / L), pt.2 + d * (tg.1 / L)) :=
      (Option.some.inj hsome).symm
    subst hqeq
    have hLne : L ≠ 0 := ne_of_gt hpos
    have h0 : 0 ≤ (-tg.2) ^ 2 + tg.1 ^ 2 := by positivity
    have hsum : (-tg.2) ^ 2 + tg.1 ^ 2 = L ^ 2 := (Real.sq_sqrt h0).symm
    have key : ((pt.1 + d * (-tg.2 / L), pt.2 + d * (tg.1 / L)).1 - pt.1) ^ 2
        + ((pt.1 + d * (-tg.2 / L), pt.2 + d * (tg.1 / L)).2 - pt.2) ^ 2 = d ^ 2 := by
      have expand : ((pt.1 + d * (-tg.2 / L), pt.2 + d * (tg.1 / L)).1 - pt.1) ^ 2
          + ((pt.1 + d * (-tg.2 / L), pt.2 + d * (tg.1 / L)).2 - pt.2) ^ 2
          = d ^ 2 * ((-tg.2) ^ 2 + tg.1 ^ 2) / L ^ 2 := by
        simp only [Prod.fst, Prod.snd]
        ring
      rw [expand, hsum, mul_div_assoc, div_self (pow_ne_zero 2 hLne), mul_one]
    rw [dist, key, Real.sqrt_sq_eq_abs]
  · rw [if_neg hpos] at hsome
    exact absurd hsome (by simp)

/-- Witness for C10: the first emitted point of the offset of the curve
(0,0),(1,0),(2,0) with offset 1 lies at distance 1 from the curve. -/
theorem offset_points_at_distance_witness :
    (1 : ℕ) ≤ 1 ∧
    (((0 : ℝ), (1 : ℝ)) : Point) ∈ offset_bezier_curve (0, 0) (1, 0) (2, 0) 1 1 ∧
    ∃ i : ℕ, i ≤ 1 ∧ offset_sample (0, 0) (1, 0) (2, 0) 1 1 i = some ((0 : ℝ), (1 : ℝ)) ∧
      dist ((0 : ℝ), (1 : ℝ))
        (quadratic_bezier (0, 0) (1, 0) (2, 0) ((i : ℝ) / (((1 : ℕ) : ℝ)))) = |(1 : ℝ)| := by
  have s0 : offset_sample (0, 0) (1, 0) (2, 0) 1 1 0 = some ((0 : ℝ), (1 : ℝ)) := by
    simp only [offset_sample, bez_tangent, quadratic_bezier]
    norm_num [sqrt_four]
  have s1 : offset_sample (0, 0) (1, 0) (2, 0) 1 1 1 = some ((2 : ℝ), (1 : ℝ)) := by
    simp only [offset_sample, bez_tangent, quadratic_bezier]
    norm_num [sqrt_four]
  have hmem : (((0 : ℝ), (1 : ℝ)) : Point) ∈ offset_bezier_curve (0, 0) (1, 0) (2, 0) 1 1 := by
    rw [offset_bezier_curve, foldl_opt_append, List.nil_append,
      show List.range 2 = [0, 1] from rfl,
      List.filterMap_cons, s0, List.filterMap_cons, s1, List.filterMap_nil]
    exact List.mem_cons_self _ _
  exact ⟨le_refl 1, hmem,
    offset_points_at_distance (0, 0) (1, 0) (2, 0) 1 1 (le_refl 1) ((0 : ℝ), (1 : ℝ)) hmem⟩

lemma bez_inner_eq (p0 p1 p2 : Point) :
    bez_inner p0 p1 p2 = (List.range 29).map fun (i : ℕ) =>
      quadratic_bezier p0 p1 p2 (((i : ℝ) + 1) / ((30 : ℕ) : ℝ)) := by
  rw [bez_inner, generate_bezier_points, List.range_succ_eq_map, List.map_cons]
  rw [List.drop_succ_cons, List.drop_zero, List.map_map]
  rw [show List.range 30 = List.range 29 ++ [29] from List.range_succ 29]
  rw [List.map_append, List.map_cons, List.map_nil, List.dropLast_concat]
  apply List.map_congr_left
  intro i hi
  simp only [Function.comp_apply]
  congr 1
  push_cast
  ring

lemma bez_symm (a b c : Point) (t : ℝ) :
    quadratic_bezier (mirror_pt c) (mirror_pt b) (mirror_pt a) (1 - t)
      = mirror_pt (quadratic_bezier a b c t) := by
  simp only [quadratic_bezier, mirror_pt, Prod.mk.injEq]
  constructor <;> ring

lemma mirror_mem_bez_inner {a b c : Point} {p : Point} (h : p ∈ bez_inner a b c) :
    mirror_pt p ∈ bez_inner (mirror_pt c) (mirror_pt b) (mirror_pt a) := by
  rw [bez_inner_eq] at h ⊢
  rw [List.mem_map] at h ⊢
  obtain ⟨i, hi, rfl⟩ := h
  have hi' : i < 29 := List.mem_range.mp hi
  refine ⟨28 - i, List.mem_range.mpr (by omega), ?_⟩
  have hcast : ((28 - i : ℕ) : ℝ) = 28 - (i : ℝ) := by
    rw [Nat.cast_sub (by omega : i ≤ 28)]
    norm_num
  rw [hcast, show ((28 : ℝ) - (i : ℝ) + 1) / ((30 : ℕ) : ℝ)
      = 1 - ((i : ℝ) + 1) / ((30 : ℕ) : ℝ) from by push_cast; ring]
  exact bez_symm a b c _

lemma front_sym_aux (m : Meas) (p : Point) (h : p ∈ front_polygon_pts_smooth m) :
    mirror_pt p ∈ front_polygon_pts_smooth m := by
  have hcf : mirror_pt (p_cf_neck m) = p_cf_neck m := by
    simp [mirror_pt, p_cf_neck]
  unfold front_polygon_pts_smooth at h ⊢
  simp only [List.mem_append, List.mem_cons, List.mem_singleton, List.not_mem_nil,
    or_false, false_or, or_assoc] at h ⊢
  rcases h with h | h | h | h | h | h | h | h | h | h | h | h | h
  · subst h
    simp [hcf]
  · have h2 := mirror_mem_bez_inner h
    rw [hcf] at h2
    tauto
  · subst h
    tauto
  · subst h
    tauto
  · have h2 := mirror_mem_bez_inner h
    tauto
  · subst h
    tauto
  · subst h
    tauto
  · subst h
    simp [mirror_mirror]
  · subst h
    simp [mirror_mirror]
  · have h2 := mirror_mem_bez_inner h
    simp only [mirror_mirror] at h2
    tauto
  · subst h
    simp [mirror_mirror]
  · subst h
    simp [mirror_mirror]
  · have h2 := mirror_mem_bez_inner h
    simp only [mirror_mirror, hcf] at h2
    tauto

/-- Claim C7: the front body boundary point sequence drafted from any
measurement set is mirror-symmetric about the vertical center line - for every
boundary point (x, y), the point (-x, y) is also a boundary point (exactly,
over the reals). -/
theorem front_body_boundary_symmetric (m : Meas) (p : Point)
    (h : p ∈ front_polygon_pts_smooth (clampMeas m)) :
    mirror_pt p ∈ front_polygon_pts_smooth (clampMeas m) :=
  front_sym_aux (clampMeas m) p h

/-- Witness for C7: the center-front neck point of the all-ones measurement
set and its mirror both lie on the drafted front boundary. -/
theorem front_body_boundary_symmetric_witness :
    p_cf_neck (clampMeas eqMeas) ∈ front_polygon_pts_smooth (clampMeas eqMeas) ∧
    mirror_pt (p_cf_neck (clampMeas eqMeas)) ∈ front_polygon_pts_smooth (clampMeas eqMeas) := by
  have hm : p_cf_neck (clampMeas eqMeas) ∈ front_polygon_pts_smooth (clampMeas eqMeas) := by
    unfold front_polygon_pts_smooth
    simp
  exact ⟨hm, front_body_boundary_symmetric eqMeas _ hm⟩

end Polo
